import Mathlib

/-!
Verification of the soil-analysis dashboards (`app.py`, `code.py`).

The embedding follows the source: the rejection-sampling loop inside
`create_soil_quality_map` (app.py), the shapefile-processing handler
(code.py) and `extract_shapefile` (app.py) are translated directly from
the Python code. The classification core described by the specification
(`classify_soil_texture`, `classify_soil_quality`,
`classify_management_zone`, `summarize`) has no definition in the
repository sources, so those functions are modelled from the spec, as
marked on each definition.

Randomness is abstracted: the stream of candidate draws produced by
`np.random.uniform` is a parameter `draws : Nat → ℚ × ℚ`, and the
point-in-polygon test `farm_geom.contains` is a parameter
`contains : ℚ × ℚ → Bool`.
-/

/-- One quality zone's sampling loop inside `create_soil_quality_map`
(app.py lines 100-109):
`while len(sample_points) < 3 and attempts < 50`, draw `(x, y)` in the
bounding box, and append `[y, x]` when `farm_geom.contains(Point(x, y))`;
`attempts` is incremented on every iteration. `remaining` is the number
of attempts still allowed (`budget - attempts`), so `attempts < budget`
is exactly `remaining ≠ 0`. Returns the accepted points together with
the final value of `attempts`. -/
def sample_points_loop (contains : ℚ × ℚ → Bool) (draws : Nat → ℚ × ℚ)
    (target : Nat) :
    Nat → Nat → List (ℚ × ℚ) → List (ℚ × ℚ) × Nat
  | 0, attempts, acc => (acc, attempts)
  | remaining + 1, attempts, acc =>
    if acc.length < target then
      let xy := draws attempts
      let acc' := if contains xy then acc ++ [(xy.2, xy.1)] else acc
      sample_points_loop contains draws target remaining (attempts + 1) acc'
    else (acc, attempts)

/-- The sample-point generation for one quality zone in
`create_soil_quality_map` (app.py line 101): target of 3 points per
zone, attempt budget of 50, starting from `attempts = 0` and
`sample_points = []`. -/
def create_soil_quality_map_samples (contains : ℚ × ℚ → Bool)
    (draws : Nat → ℚ × ℚ) : List (ℚ × ℚ) × Nat :=
  sample_points_loop contains draws 3 50 0 []

/-- The candidate points drawn at indices `start, start+1, …,
start+n-1` that pass the containment test, stored as `[y, x]` pairs the
way the loop stores them. -/
def accepted_draws (contains : ℚ × ℚ → Bool) (draws : Nat → ℚ × ℚ) :
    Nat → Nat → List (ℚ × ℚ)
  | _, 0 => []
  | start, n + 1 =>
    (if contains (draws start) then [((draws start).2, (draws start).1)]
     else []) ++ accepted_draws contains draws (start + 1) n

/-- Modelled from the spec: `TextureClass` — the repository sources do
not define the texture classifier, so the label set is taken from the
spec's data model, the fixed set {Clay, Sand, Silt, Sandy Clay, Silty
Clay, Clay Loam, Sandy Loam, Silt Loam, Loam}. -/
inductive TextureClass where
  | clay
  | sand
  | silt
  | sandyClay
  | siltyClay
  | clayLoam
  | sandyLoam
  | siltLoam
  | loam
deriving DecidableEq, Fintype, Repr

/-- Modelled from the spec: `classify_soil_texture` is absent from the
repository sources; spec §4.3 gives the pure decision tree, evaluated in
this fixed priority order (first match wins), with no normalization of
the caller-supplied percentages. -/
def classify_soil_texture (clay sand silt : ℚ) : TextureClass :=
  if 40 ≤ clay then .clay
  else if 85 ≤ sand then .sand
  else if 80 ≤ silt then .silt
  else if 25 ≤ clay ∧ 45 ≤ sand then .sandyClay
  else if 25 ≤ clay ∧ 40 ≤ silt then .siltyClay
  else if 20 ≤ clay then .clayLoam
  else if 70 ≤ sand then .sandyLoam
  else if 50 ≤ silt then .siltLoam
  else .loam

/-- Modelled from the spec: `SoilPropertyRecord` — the repository
sources do not define the soil-property record; fields follow the
spec's data model, each an optional numeric value with absence marked
explicitly. -/
structure SoilPropertyRecord where
  ph : Option ℚ
  organic_carbon : Option ℚ
  clay_content : Option ℚ
  sand_content : Option ℚ
  silt_content : Option ℚ
  nitrogen : Option ℚ
  cec : Option ℚ
  bulk_density : Option ℚ
deriving DecidableEq, Repr

/-- The record with every property absent. -/
def SoilPropertyRecord.empty : SoilPropertyRecord :=
  ⟨none, none, none, none, none, none, none, none⟩

/-- Modelled from the spec: the quality category labels, the ordered
set {Very Poor, Poor, Fair, Good, Excellent} plus the degenerate
Unknown returned when no parameter is available. -/
inductive QualityCategory where
  | unknown
  | veryPoor
  | poor
  | fair
  | good
  | excellent
deriving DecidableEq, Repr

/-- Rank of a quality category in the ordered set, Unknown ranking
below all five ordinary labels. -/
def QualityCategory.rank : QualityCategory → Nat
  | .unknown => 0
  | .veryPoor => 1
  | .poor => 2
  | .fair => 3
  | .good => 4
  | .excellent => 5

/-- Modelled from the spec: the three scored parameters of
`classify_soil_quality` (pH, organic carbon, clay content). -/
inductive ScoredParam where
  | phParam
  | organicCarbonParam
  | clayParam
deriving DecidableEq, Repr

/-- Modelled from the spec: the pH sub-score bands of
`classify_soil_quality` (spec §4.2): [6.0,7.0]→5; [5.5,6.0) or
(7.0,7.5]→4; [5.0,5.5) or (7.5,8.0]→3; [4.5,5.0) or (8.0,8.5]→2;
else→1. -/
def ph_subscore (v : ℚ) : Nat :=
  if 6 ≤ v ∧ v ≤ 7 then 5
  else if (5.5 ≤ v ∧ v < 6) ∨ (7 < v ∧ v ≤ 7.5) then 4
  else if (5 ≤ v ∧ v < 5.5) ∨ (7.5 < v ∧ v ≤ 8) then 3
  else if (4.5 ≤ v ∧ v < 5) ∨ (8 < v ∧ v ≤ 8.5) then 2
  else 1

/-- Modelled from the spec: the organic-carbon sub-score bands of
`classify_soil_quality` (spec §4.2, g/kg): ≥20→5; ≥15→4; ≥10→3; ≥5→2;
else→1. -/
def organic_carbon_subscore (v : ℚ) : Nat :=
  if 20 ≤ v then 5
  else if 15 ≤ v then 4
  else if 10 ≤ v then 3
  else if 5 ≤ v then 2
  else 1

/-- Modelled from the spec: the clay-content sub-score bands of
`classify_soil_quality` (spec §4.2, %): [20,40]→5; [15,20) or
(40,50]→4; [10,15) or (50,60]→3; [5,10) or (60,70]→2; else→1. -/
def clay_subscore (v : ℚ) : Nat :=
  if 20 ≤ v ∧ v ≤ 40 then 5
  else if (15 ≤ v ∧ v < 20) ∨ (40 < v ∧ v ≤ 50) then 4
  else if (10 ≤ v ∧ v < 15) ∨ (50 < v ∧ v ≤ 60) then 3
  else if (5 ≤ v ∧ v < 10) ∨ (60 < v ∧ v ≤ 70) then 2
  else 1

/-- Modelled from the spec: the per-parameter breakdown entries of
`classify_soil_quality`: each of the three scored parameters
contributes its sub-score when present and nothing when absent. -/
def quality_entries (r : SoilPropertyRecord) : List (ScoredParam × Nat) :=
  (match r.ph with
   | some v => [(ScoredParam.phParam, ph_subscore v)]
   | none => []) ++
  (match r.organic_carbon with
   | some v => [(ScoredParam.organicCarbonParam, organic_carbon_subscore v)]
   | none => []) ++
  (match r.clay_content with
   | some v => [(ScoredParam.clayParam, clay_subscore v)]
   | none => [])

/-- Running total of available sub-scores. -/
def quality_total (r : SoilPropertyRecord) : Nat :=
  ((quality_entries r).map (fun e => e.2)).sum

/-- Running maximum: each available scored parameter contributes 5. -/
def quality_maximum (r : SoilPropertyRecord) : Nat :=
  5 * (quality_entries r).length

/-- Modelled from the spec: the percentage-to-category bands of
`classify_soil_quality` (spec §4.2): ≥80 Excellent, ≥65 Good, ≥50 Fair,
≥35 Poor, else Very Poor. -/
def score_to_category (p : ℚ) : QualityCategory :=
  if 80 ≤ p then .excellent
  else if 65 ≤ p then .good
  else if 50 ≤ p then .fair
  else if 35 ≤ p then .poor
  else .veryPoor

/-- Modelled from the spec: `QualityClassification` — category label,
percentage score, and per-parameter breakdown. -/
structure QualityClassification where
  category : QualityCategory
  percentage : ℚ
  breakdown : List (ScoredParam × Nat)
deriving DecidableEq, Repr

/-- Modelled from the spec: `classify_soil_quality` is absent from the
repository sources; spec §4.2: score the available parameters, return
the Unknown degenerate case when none is available, otherwise
percentage = 100 × total / maximum and the banded category. -/
def classify_soil_quality (r : SoilPropertyRecord) : QualityClassification :=
  let maximum := quality_maximum r
  if maximum = 0 then ⟨.unknown, 0, []⟩
  else
    let pct : ℚ := 100 * (quality_total r : ℚ) / (maximum : ℚ)
    ⟨score_to_category pct, pct, quality_entries r⟩

/-- Modelled from the spec: the management-zone labels, the fixed set
{Premium Zone, Good Production Zone, Moderate Zone, Improvement
Zone}. -/
inductive ZoneLabel where
  | premium
  | goodProduction
  | moderate
  | improvement
deriving DecidableEq, Repr

/-- Recommendation for the Premium Zone; the spec's testable
properties name this string explicitly. -/
def premium_recommendation : String := "Maintain current practices"

/-- Modelled from the spec: the fixed recommendation string attached to
each zone; the spec pins only the Premium Zone's text, the other three
are placeholders for fixed strings the spec leaves unnamed. -/
def zone_recommendation : ZoneLabel → String
  | .premium => premium_recommendation
  | .goodProduction => "Continue good management"
  | .moderate => "Consider targeted amendments"
  | .improvement => "Soil improvement needed"

/-- Modelled from the spec: `classify_management_zone` is absent from
the repository sources; spec §4.5: Premium Zone requires
quality_percentage ≥ 75 AND 6.0 ≤ ph ≤ 7.0; else Good Production Zone
if ≥ 60; else Moderate Zone if ≥ 40; else Improvement Zone. -/
def classify_management_zone (quality_percentage ph : ℚ) :
    ZoneLabel × String :=
  if 75 ≤ quality_percentage ∧ 6 ≤ ph ∧ ph ≤ 7 then
    (.premium, zone_recommendation .premium)
  else if 60 ≤ quality_percentage then
    (.goodProduction, zone_recommendation .goodProduction)
  else if 40 ≤ quality_percentage then
    (.moderate, zone_recommendation .moderate)
  else (.improvement, zone_recommendation .improvement)

/-- Modelled from the spec: `SamplePointResult` — the per-point
aggregate of coordinate, raw record, quality classification, texture
class, nutrient score and management zone. -/
structure SamplePointResult where
  coordinate : ℚ × ℚ
  record : SoilPropertyRecord
  quality : QualityClassification
  texture : TextureClass
  nutrient_score : ℚ
  zone : ZoneLabel × String
deriving DecidableEq, Repr

/-- Arithmetic mean of a list of rationals, explicitly absent (`none`)
on the empty list — never zero and never a silent NaN. -/
def mean_opt (xs : List ℚ) : Option ℚ :=
  if xs.isEmpty then none else some (xs.sum / (xs.length : ℚ))

/-- Frequency table over the category labels observed: one entry per
distinct observed label, with its count; empty for no observations. -/
def category_distribution (cats : List QualityCategory) :
    List (QualityCategory × Nat) :=
  cats.dedup.map (fun c => (c, cats.count c))

/-- Modelled from the spec: `FarmSummary` — per-property means over the
results where the property is present, the quality-category frequency
table, the overall mean quality percentage, and the sample count. -/
structure FarmSummary where
  sample_count : Nat
  avg_ph : Option ℚ
  avg_organic_carbon : Option ℚ
  avg_clay_content : Option ℚ
  avg_sand_content : Option ℚ
  avg_silt_content : Option ℚ
  avg_nitrogen : Option ℚ
  avg_cec : Option ℚ
  avg_bulk_density : Option ℚ
  avg_quality : Option ℚ
  distribution : List (QualityCategory × Nat)
deriving DecidableEq, Repr

/-- Modelled from the spec: `summarize` is absent from the repository
sources; spec §4.6: per-property means over only the results where that
property is present, a frequency table over observed category labels,
and sample_count = number of results even if 0. -/
def summarize (results : List SamplePointResult) : FarmSummary where
  sample_count := results.length
  avg_ph := mean_opt (results.filterMap (fun s => s.record.ph))
  avg_organic_carbon :=
    mean_opt (results.filterMap (fun s => s.record.organic_carbon))
  avg_clay_content :=
    mean_opt (results.filterMap (fun s => s.record.clay_content))
  avg_sand_content :=
    mean_opt (results.filterMap (fun s => s.record.sand_content))
  avg_silt_content :=
    mean_opt (results.filterMap (fun s => s.record.silt_content))
  avg_nitrogen := mean_opt (results.filterMap (fun s => s.record.nitrogen))
  avg_cec := mean_opt (results.filterMap (fun s => s.record.cec))
  avg_bulk_density :=
    mean_opt (results.filterMap (fun s => s.record.bulk_density))
  avg_quality := mean_opt (results.map (fun s => s.quality.percentage))
  distribution := category_distribution (results.map (fun s => s.quality.category))

/-- The WGS84 coordinate reference system identifier used by the
Process Shapefile handler in code.py. -/
def wgs84 : String := "EPSG:4326"

/-- An example source CRS different from WGS84 (ETRS89 / UTM zone
30N), used to exercise the reprojection branch. -/
def etrs89_utm30 : String := "EPSG:25830"

/-- A GeoDataFrame as the Process Shapefile handler in code.py sees it:
a coordinate reference system, possibly missing (`gdf.crs` may be
`None` for a shapefile without a .prj), plus its feature rows,
abstracted to an opaque payload count. -/
structure GeoLayer where
  crs : Option String
  feature_count : Nat
deriving DecidableEq, Repr

/-- `gdf.to_crs('EPSG:4326')` (code.py line 121): reprojects the layer
into the target system; on a layer with no CRS the library raises,
modelled as `none`. -/
def GeoLayer.to_crs (g : GeoLayer) (target : String) : Option GeoLayer :=
  match g.crs with
  | none => none
  | some _ => some ⟨some target, g.feature_count⟩

/-- The layer the Process Shapefile handler (code.py lines 110-125)
stores for a given upload, or `none` when the handler stores nothing:
no .shp file in the archive is reported as an error, a failing
`read_file` or `to_crs` call raises into the surrounding
`except` block, and a layer whose CRS differs from `'EPSG:4326'` is
reprojected before being stored. `read_result` is `gpd.read_file`'s
outcome: `none` models a raised exception. -/
def process_shapefile_stored (shp_found : Bool)
    (read_result : Option GeoLayer) : Option GeoLayer :=
  if shp_found then
    match read_result with
    | none => none
    | some g => if g.crs ≠ some wgs84 then g.to_crs wgs84 else some g
  else none

/-- The session-state update performed by the Process Shapefile handler
(code.py lines 123-125): on success the layer is stored into
`st.session_state.uploaded_layers` under its layer name; on any error
the state is left unchanged. -/
def process_shapefile_update (shp_found : Bool)
    (read_result : Option GeoLayer) (layer_name : String)
    (layers : List (String × GeoLayer)) : List (String × GeoLayer) :=
  match process_shapefile_stored shp_found read_result with
  | some g => (layer_name, g) :: layers
  | none => layers

/-- The message `extract_shapefile` returns when the archive holds no
shapefile (app.py line 35). -/
def no_shp_message : String := "No .shp file found in ZIP"

/-- The message prefix `extract_shapefile` returns when an exception is
caught (app.py line 41). -/
def extract_error_message : String := "Error extracting file: "

/-- The .shp file suffix `extract_shapefile` searches for (app.py
line 33). -/
def shp_suffix : String := ".shp"

/-- The path separator `os.path.join` inserts (app.py line 37). -/
def pathSep : String := "/"

/-- `extract_shapefile` (app.py lines 17-41). The body of the `try`
block up to `os.listdir` — creating the temporary directory, saving the
upload, extracting the ZIP and listing the directory — is modelled by
`extraction`: either the directory listing, or the string of the
exception the `except Exception` clause catches. On success the first
listed `.shp` file is joined to the temporary directory path and
returned with no error; otherwise `None` is paired with an error
message. -/
def extract_shapefile (temp_dir : String)
    (extraction : Except String (List String)) :
    Option String × Option String :=
  match extraction with
  | .error e => (none, some (extract_error_message ++ e))
  | .ok files =>
    match files.filter (fun f => f.endsWith shp_suffix) with
    | [] => (none, some no_shp_message)
    | f :: _ => (some (temp_dir ++ pathSep ++ f), none)

/-- Unfolding equation for one iteration of the sampling loop. -/
theorem sample_points_loop_succ (contains : ℚ × ℚ → Bool)
    (draws : Nat → ℚ × ℚ) (target rem attempts : Nat)
    (acc : List (ℚ × ℚ)) :
    sample_points_loop contains draws target (rem + 1) attempts acc =
      if acc.length < target then
        sample_points_loop contains draws target rem (attempts + 1)
          (if contains (draws attempts) then
            acc ++ [((draws attempts).2, (draws attempts).1)] else acc)
      else (acc, attempts) := rfl

/-- Loop invariant: the loop only ever appends candidates that pass the
containment test, so if every point already accumulated passes it, then
so does every point in the final result. -/
theorem sample_points_loop_mem_contains (contains : ℚ × ℚ → Bool)
    (draws : Nat → ℚ × ℚ) (target : Nat) :
    ∀ (rem attempts : Nat) (acc : List (ℚ × ℚ)),
      (∀ p ∈ acc, contains (p.2, p.1) = true) →
      ∀ p ∈ (sample_points_loop contains draws target rem attempts acc).1,
        contains (p.2, p.1) = true := by
  intro rem
  induction rem with
  | zero => intro attempts acc hacc p hp; exact hacc p hp
  | succ rem ih =>
    intro attempts acc hacc p hp
    rw [sample_points_loop] at hp
    by_cases hlen : acc.length < target
    · rw [if_pos hlen] at hp
      refine ih (attempts + 1) _ ?_ p hp
      intro q hq
      by_cases hc : contains (draws attempts) = true
      · rw [if_pos hc] at hq
        rcases List.mem_append.mp hq with hq' | hq'
        · exact hacc q hq'
        · rcases List.mem_singleton.mp hq' with rfl
          simpa using hc
      · rw [if_neg hc] at hq
        exact hacc q hq
    · rw [if_neg hlen] at hp
      exact hacc p hp

/-- The final `attempts` value is bounded by the starting value plus the
remaining budget. -/
theorem sample_points_loop_attempts_le (contains : ℚ × ℚ → Bool)
    (draws : Nat → ℚ × ℚ) (target : Nat) :
    ∀ (rem attempts : Nat) (acc : List (ℚ × ℚ)),
      (sample_points_loop contains draws target rem attempts acc).2 ≤
        attempts + rem := by
  intro rem
  induction rem with
  | zero => intro attempts acc; simp [sample_points_loop]
  | succ rem ih =>
    intro attempts acc
    rw [sample_points_loop]
    by_cases hlen : acc.length < target
    · rw [if_pos hlen]
      calc (sample_points_loop contains draws target rem (attempts + 1) _).2 ≤
            attempts + 1 + rem := ih _ _
        _ = attempts + (rem + 1) := by omega
    · rw [if_neg hlen]; omega

/-- The accumulated list never grows past the target. -/
theorem sample_points_loop_length_le (contains : ℚ × ℚ → Bool)
    (draws : Nat → ℚ × ℚ) (target : Nat) :
    ∀ (rem attempts : Nat) (acc : List (ℚ × ℚ)), acc.length ≤ target →
      (sample_points_loop contains draws target rem attempts acc).1.length ≤
        target := by
  intro rem
  induction rem with
  | zero => intro attempts acc h; simpa [sample_points_loop] using h
  | succ rem ih =>
    intro attempts acc h
    rw [sample_points_loop]
    by_cases hlen : acc.length < target
    · rw [if_pos hlen]
      refine ih _ _ ?_
      by_cases hc : contains (draws attempts) = true <;>
        simp [hc] <;> omega
    · rw [if_neg hlen]; exact h

/-- The loop ends in one of exactly two ways: the budget is used up, or
the target number of accepted points has been reached. -/
theorem sample_points_loop_stopping (contains : ℚ × ℚ → Bool)
    (draws : Nat → ℚ × ℚ) (target : Nat) :
    ∀ (rem attempts : Nat) (acc : List (ℚ × ℚ)), acc.length ≤ target →
      (sample_points_loop contains draws target rem attempts acc).2 =
          attempts + rem ∨
        (sample_points_loop contains draws target rem attempts acc).1.length =
          target := by
  intro rem
  induction rem with
  | zero => intro attempts acc _; left; simp [sample_points_loop]
  | succ rem ih =>
    intro attempts acc h
    rw [sample_points_loop_succ]
    by_cases hlen : acc.length < target
    · rw [if_pos hlen]
      have hlen' :
          (if contains (draws attempts) then
            acc ++ [((draws attempts).2, (draws attempts).1)] else acc).length ≤
            target := by
        by_cases hc : contains (draws attempts) = true <;> simp [hc] <;> omega
      rcases ih (attempts + 1) _ hlen' with h' | h'
      · left; omega
      · right; exact h'
    · rw [if_neg hlen]
      right
      show acc.length = target
      omega

/-- When too few of the candidates offered to the loop pass the
containment test, the loop runs through its whole remaining budget and
returns exactly the accepted candidates, in draw order. -/
theorem sample_points_loop_exhausts (contains : ℚ × ℚ → Bool)
    (draws : Nat → ℚ × ℚ) (target : Nat) :
    ∀ (rem attempts : Nat) (acc : List (ℚ × ℚ)),
      acc.length + (accepted_draws contains draws attempts rem).length <
        target →
      sample_points_loop contains draws target rem attempts acc =
        (acc ++ accepted_draws contains draws attempts rem, attempts + rem) := by
  intro rem
  induction rem with
  | zero =>
    intro attempts acc _
    simp [sample_points_loop, accepted_draws]
  | succ rem ih =>
    intro attempts acc h
    have hlen : acc.length < target := by
      have := Nat.le_add_right acc.length
        (accepted_draws contains draws attempts (rem + 1)).length
      omega
    rw [sample_points_loop_succ, if_pos hlen]
    by_cases hc : contains (draws attempts) = true
    · have h' : (acc ++ [((draws attempts).2, (draws attempts).1)]).length +
          (accepted_draws contains draws (attempts + 1) rem).length < target := by
        rw [accepted_draws, if_pos hc] at h
        simp only [List.length_append, List.length_cons, List.length_nil] at h ⊢
        omega
      rw [if_pos hc, ih (attempts + 1) _ h', accepted_draws, if_pos hc]
      rw [Prod.mk.injEq]
      constructor
      · rw [List.append_assoc]
      · omega
    · have h' : acc.length +
          (accepted_draws contains draws (attempts + 1) rem).length < target := by
        rw [accepted_draws, if_neg hc] at h
        simpa using h
      rw [if_neg hc, ih (attempts + 1) _ h', accepted_draws, if_neg hc]
      rw [Prod.mk.injEq]
      constructor
      · rw [List.nil_append]
      · omega

/-- C1: every coordinate returned by the sample-point generation in
`create_soil_quality_map` passes the point-in-polygon test against the
supplied farm geometry: a pair `[y, x]` is retained only when
`farm_geom.contains(Point(x, y))` succeeded, so every returned
coordinate lies inside the farm boundary. -/
theorem create_soil_quality_map_samples_inside
    (contains : ℚ × ℚ → Bool) (draws : Nat → ℚ × ℚ) (p : ℚ × ℚ)
    (hp : p ∈ (create_soil_quality_map_samples contains draws).1) :
    contains (p.2, p.1) = true :=
  sample_points_loop_mem_contains contains draws 3 50 0 []
    (by intro q hq; simp at hq) p hp

/-- Concrete run of C1: with the containment test `x ≤ 5` and a draw
stream whose first candidate (10, 3) is rejected and whose later
candidates (1, 2) are accepted, the returned point (2, 1) passes the
containment test. -/
theorem create_soil_quality_map_samples_inside_witness :
    (fun xy : ℚ × ℚ => decide (xy.1 ≤ 5))
      (((2 : ℚ), (1 : ℚ)).2, ((2 : ℚ), (1 : ℚ)).1) = true :=
  create_soil_quality_map_samples_inside
    (fun xy : ℚ × ℚ => decide (xy.1 ≤ 5))
    (fun i => if i = 0 then (10, 3) else (1, 2))
    ((2 : ℚ), (1 : ℚ)) (by decide)

/-- C2 counterexample: with a containment test that never succeeds, the
generation loop for the requested per-zone count of 3 points performs
50 iterations, exceeding the claimed budget of 10 × 3 = 30 candidate
draws. -/
theorem create_soil_quality_map_samples_budget_counterexample :
    (create_soil_quality_map_samples (fun _ => false) (fun _ => (0, 0))).2 =
        50 ∧
      ¬ (create_soil_quality_map_samples (fun _ => false)
          (fun _ => (0, 0))).2 ≤ 10 * 3 := by
  decide

/-- C2 amended: the loop stops as soon as 3 accepted points are found
or a budget of exactly 50 candidate draws is exhausted, so it performs
at most 50 iterations — the code uses the constants 3 and 50, not a
10 × count budget. -/
theorem create_soil_quality_map_samples_budget (contains : ℚ × ℚ → Bool)
    (draws : Nat → ℚ × ℚ) :
    (create_soil_quality_map_samples contains draws).2 ≤ 50 ∧
      (create_soil_quality_map_samples contains draws).1.length ≤ 3 ∧
      ((create_soil_quality_map_samples contains draws).2 = 50 ∨
        (create_soil_quality_map_samples contains draws).1.length = 3) := by
  refine ⟨?_, ?_, ?_⟩
  · simpa using sample_points_loop_attempts_le contains draws 3 50 0 []
  · exact sample_points_loop_length_le contains draws 3 50 0 [] (by simp)
  · simpa using sample_points_loop_stopping contains draws 3 50 0 [] (by simp)

/-- C8: when the attempt budget is exhausted before 3 accepted points
are found — that is, fewer than 3 of the 50 candidates offered pass the
containment test — the generation returns exactly the accepted
candidates, a well-defined list shorter than the requested count
(possibly empty), rather than raising an error. -/
theorem create_soil_quality_map_samples_short (contains : ℚ × ℚ → Bool)
    (draws : Nat → ℚ × ℚ)
    (h : (accepted_draws contains draws 0 50).length < 3) :
    (create_soil_quality_map_samples contains draws).1 =
        accepted_draws contains draws 0 50 ∧
      (create_soil_quality_map_samples contains draws).1.length < 3 := by
  have hrun := sample_points_loop_exhausts contains draws 3 50 0 []
    (by simpa using h)
  have h2 : (create_soil_quality_map_samples contains draws).1 =
      accepted_draws contains draws 0 50 := by
    show (sample_points_loop contains draws 3 50 0 []).1 =
      accepted_draws contains draws 0 50
    rw [hrun]
    simp
  exact ⟨h2, by rw [h2]; exact h⟩

/-- Concrete run of C8: a containment test that never succeeds
exhausts the budget with zero accepted points, and the generation
returns the empty list rather than failing. -/
theorem create_soil_quality_map_samples_short_witness :
    (create_soil_quality_map_samples (fun _ => false) (fun _ => (1, 1))).1 =
        accepted_draws (fun _ => false) (fun _ => (1, 1)) 0 50 ∧
      (create_soil_quality_map_samples (fun _ => false)
          (fun _ => (1, 1))).1.length < 3 :=
  create_soil_quality_map_samples_short _ _ (by decide)

/-- C3 counterexample: the texture classifier cannot return labels from
a twelve-element set — its label type has only nine inhabitants, so no
twelve-element label set exists at all. -/
theorem classify_soil_texture_not_twelve :
    ¬ ∃ S : Finset TextureClass, S.card = 12 ∧
      ∀ c s si : ℚ, classify_soil_texture c s si ∈ S := by
  rintro ⟨S, hcard, -⟩
  have huniv : (Finset.univ : Finset TextureClass).card = 9 := by decide
  have hle : S.card ≤ (Finset.univ : Finset TextureClass).card :=
    Finset.card_le_univ S
  omega

/-- C3 amended: for every input composition, `classify_soil_texture`
returns one of the nine texture classes in the fixed set {Clay, Sand,
Silt, Sandy Clay, Silty Clay, Clay Loam, Sandy Loam, Silt Loam,
Loam}. -/
theorem classify_soil_texture_label_set (c s si : ℚ) :
    classify_soil_texture c s si ∈
      [TextureClass.clay, TextureClass.sand, TextureClass.silt,
       TextureClass.sandyClay, TextureClass.siltyClay,
       TextureClass.clayLoam, TextureClass.sandyLoam,
       TextureClass.siltLoam, TextureClass.loam] := by
  cases h : classify_soil_texture c s si <;> simp

/-- C4: a present pH in [6.0, 7.0] receives sub-score 5 in the
breakdown and pH = 4.0 receives sub-score 1; whenever at least one
parameter is available, the percentage equals 100 × total / maximum and
the category comes from the percentage via the non-overlapping bands
≥80 Excellent, ≥65 Good, ≥50 Fair, ≥35 Poor, else Very Poor. -/
theorem classify_soil_quality_scoring :
    (∀ (r : SoilPropertyRecord) (v : ℚ), r.ph = some v → 6 ≤ v → v ≤ 7 →
      (ScoredParam.phParam, 5) ∈ (classify_soil_quality r).breakdown) ∧
    (∀ r : SoilPropertyRecord, r.ph = some 4 →
      (ScoredParam.phParam, 1) ∈ (classify_soil_quality r).breakdown) ∧
    (∀ r : SoilPropertyRecord, quality_maximum r ≠ 0 →
      (classify_soil_quality r).percentage =
          100 * (quality_total r : ℚ) / (quality_maximum r : ℚ) ∧
        (classify_soil_quality r).category =
          score_to_category (classify_soil_quality r).percentage) ∧
    (∀ p : ℚ,
      (80 ≤ p → score_to_category p = QualityCategory.excellent) ∧
      (65 ≤ p → p < 80 → score_to_category p = QualityCategory.good) ∧
      (50 ≤ p → p < 65 → score_to_category p = QualityCategory.fair) ∧
      (35 ≤ p → p < 50 → score_to_category p = QualityCategory.poor) ∧
      (p < 35 → score_to_category p = QualityCategory.veryPoor)) := by
  refine ⟨?_, ?_, ?_, ?_⟩
  · intro r v hph h6 h7
    have hsub : ph_subscore v = 5 := by
      rw [ph_subscore, if_pos ⟨h6, h7⟩]
    have hmax : quality_maximum r ≠ 0 := by
      rw [quality_maximum, quality_entries, hph]
      simp
    rw [classify_soil_quality]
    rw [if_neg hmax]
    show (ScoredParam.phParam, 5) ∈ quality_entries r
    rw [quality_entries, hph]
    simp [hsub]
  · intro r hph
    have hsub : ph_subscore 4 = 1 := by norm_num [ph_subscore]
    have hmax : quality_maximum r ≠ 0 := by
      rw [quality_maximum, quality_entries, hph]
      simp
    rw [classify_soil_quality]
    rw [if_neg hmax]
    show (ScoredParam.phParam, 1) ∈ quality_entries r
    rw [quality_entries, hph]
    simp [hsub]
  · intro r hmax
    rw [classify_soil_quality, if_neg hmax]
    exact ⟨rfl, rfl⟩
  · intro p
    refine ⟨?_, ?_, ?_, ?_, ?_⟩ <;> intros <;>
      rw [score_to_category] <;> split_ifs <;>
      first | rfl | linarith

/-- Concrete run of C4: a record whose only property is pH = 6.5 gets
pH sub-score 5 in the breakdown, a record with pH = 4 gets sub-score 1,
the category of the pH = 6.5 record follows the band function of its
percentage, and a percentage of 100 lands in the Excellent band. -/
theorem classify_soil_quality_scoring_witness :
    (ScoredParam.phParam, 5) ∈
        (classify_soil_quality
          { SoilPropertyRecord.empty with ph := some 6.5 }).breakdown ∧
      (ScoredParam.phParam, 1) ∈
        (classify_soil_quality
          { SoilPropertyRecord.empty with ph := some 4 }).breakdown ∧
      (classify_soil_quality
            { SoilPropertyRecord.empty with ph := some 6.5 }).category =
        score_to_category
          (classify_soil_quality
            { SoilPropertyRecord.empty with ph := some 6.5 }).percentage ∧
      score_to_category 100 = QualityCategory.excellent :=
  ⟨classify_soil_quality_scoring.1
      { SoilPropertyRecord.empty with ph := some 6.5 } 6.5 rfl
      (by norm_num) (by norm_num),
    classify_soil_quality_scoring.2.1
      { SoilPropertyRecord.empty with ph := some 4 } rfl,
    (classify_soil_quality_scoring.2.2.1
        { SoilPropertyRecord.empty with ph := some 6.5 }
        (by decide)).2,
    (classify_soil_quality_scoring.2.2.2 100).1 (by norm_num)⟩

/-- C5: a record in which all three scored parameters — pH, organic
carbon, clay content — are absent is the defined degenerate case:
category Unknown, percentage 0, empty breakdown, with no error. -/
theorem classify_soil_quality_all_absent (r : SoilPropertyRecord)
    (hph : r.ph = none) (hoc : r.organic_carbon = none)
    (hcc : r.clay_content = none) :
    classify_soil_quality r =
      ⟨QualityCategory.unknown, 0, []⟩ := by
  have hmax : quality_maximum r = 0 := by
    rw [quality_maximum, quality_entries, hph, hoc, hcc]
    simp
  rw [classify_soil_quality, if_pos hmax]

/-- Concrete run of C5: the all-absent record classifies to the Unknown
degenerate output. -/
theorem classify_soil_quality_all_absent_witness :
    classify_soil_quality SoilPropertyRecord.empty =
      ⟨QualityCategory.unknown, 0, []⟩ :=
  classify_soil_quality_all_absent SoilPropertyRecord.empty rfl rfl rfl

/-- C6: the quality category is a monotonic function of the percentage
score — a higher percentage never gets a lower-ranked category — and
for a fixed pH, increasing the quality percentage never moves a
`classify_management_zone` result out of the Premium Zone: only the pH
gate can do that. -/
theorem quality_category_monotone :
    (∀ p1 p2 : ℚ, p1 ≤ p2 →
      (score_to_category p1).rank ≤ (score_to_category p2).rank) ∧
    (∀ p1 p2 ph : ℚ, p1 ≤ p2 →
      (classify_management_zone p1 ph).1 = ZoneLabel.premium →
      (classify_management_zone p2 ph).1 = ZoneLabel.premium) := by
  constructor
  · intro p1 p2 hle
    rw [score_to_category, score_to_category]
    split_ifs <;> simp [QualityCategory.rank] <;> linarith
  · intro p1 p2 ph hle hprem
    rw [classify_management_zone] at hprem
    split_ifs at hprem with h1
    rw [classify_management_zone,
      if_pos ⟨by linarith [h1.1], h1.2⟩]

/-- Concrete run of C6: raising the percentage from 40 to 60 does not
lower the category rank, and raising it from 80 to 90 at pH 6.5 keeps
the Premium Zone. -/
theorem quality_category_monotone_witness :
    (score_to_category 40).rank ≤ (score_to_category 60).rank ∧
      (classify_management_zone 90 6.5).1 = ZoneLabel.premium :=
  ⟨quality_category_monotone.1 40 60 (by norm_num),
    quality_category_monotone.2 80 90 6.5 (by norm_num)
      (by norm_num [classify_management_zone])⟩

/-- C7: `summarize` on the empty result sequence returns sample count
0, every per-property average explicitly absent (`none`, not zero and
not NaN), an absent overall quality mean, and an empty category
distribution, without failing. -/
theorem summarize_empty :
    summarize [] =
      ⟨0, none, none, none, none, none, none, none, none, none, []⟩ := by
  decide

/-- Any layer the Process Shapefile handler actually stores is in
EPSG:4326: a layer whose CRS differs is reprojected before storage, a
layer with no CRS makes the reprojection raise so nothing is stored,
and a missing .shp file or failed read stores nothing. -/
theorem process_shapefile_stored_crs (shp_found : Bool)
    (read_result : Option GeoLayer) (g : GeoLayer)
    (h : process_shapefile_stored shp_found read_result = some g) :
    g.crs = some wgs84 := by
  rcases shp_found with _ | _
  · exact absurd h (by simp [process_shapefile_stored])
  · rcases read_result with _ | g0
    · exact absurd h (by simp [process_shapefile_stored])
    · have h' : (if g0.crs ≠ some wgs84 then g0.to_crs wgs84 else some g0) =
          some g := h
      by_cases hcrs : g0.crs = some wgs84
      · rw [if_neg (not_not_intro hcrs)] at h'
        cases h'
        exact hcrs
      · rw [if_pos hcrs] at h'
        rcases hg0 : g0.crs with _ | c
        · rw [GeoLayer.to_crs, hg0] at h'
          cases h'
        · rw [GeoLayer.to_crs, hg0] at h'
          cases h'
          rfl

/-- C9: if every layer already stored in the uploaded-layers session
state is in EPSG:4326, then after the Process Shapefile handler runs
every stored layer is still in EPSG:4326. -/
theorem process_shapefile_crs_invariant (shp_found : Bool)
    (read_result : Option GeoLayer) (layer_name : String)
    (layers : List (String × GeoLayer))
    (hinv : ∀ e ∈ layers, e.2.crs = some wgs84) :
    ∀ e ∈ process_shapefile_update shp_found read_result layer_name layers,
      e.2.crs = some wgs84 := by
  intro e he
  rw [process_shapefile_update] at he
  rcases hstored : process_shapefile_stored shp_found read_result with
    _ | g
  · rw [hstored] at he
    exact hinv e he
  · rw [hstored] at he
    rcases List.mem_cons.mp he with rfl | he'
    · exact process_shapefile_stored_crs shp_found read_result g hstored
    · exact hinv e he'

/-- Concrete run of C9: uploading a two-feature layer in EPSG:25830
into an empty session stores it reprojected, and the stored entry is in
EPSG:4326. -/
theorem process_shapefile_crs_invariant_witness :
    (("Uploaded: farm.zip", GeoLayer.mk (some wgs84) 2) :
        String × GeoLayer).2.crs = some wgs84 :=
  process_shapefile_crs_invariant true (some (GeoLayer.mk (some etrs89_utm30) 2))
    "Uploaded: farm.zip" [] (by intro e he; simp at he)
    ("Uploaded: farm.zip", GeoLayer.mk (some wgs84) 2)
    (by decide)

/-- C10: `extract_shapefile` is total over its modelled inputs and
always returns exactly one of the two shapes: a found .shp path with no
error, or no path with an error message — exactly one component of the
pair is `None`, whether extraction succeeded, no .shp file was present,
or an exception was caught. -/
theorem extract_shapefile_exclusive (temp_dir : String)
    (extraction : Except String (List String)) :
    ((extract_shapefile temp_dir extraction).1.isNone = true ∧
        (extract_shapefile temp_dir extraction).2.isSome = true) ∨
      ((extract_shapefile temp_dir extraction).1.isSome = true ∧
        (extract_shapefile temp_dir extraction).2.isNone = true) := by
  rcases extraction with e | files
  · left; exact ⟨rfl, rfl⟩
  · have hok : extract_shapefile temp_dir (Except.ok files) =
        match files.filter (fun f => f.endsWith shp_suffix) with
        | [] => (none, some no_shp_message)
        | f :: _ => (some (temp_dir ++ pathSep ++ f), none) := rfl
    rw [hok]
    rcases hf : files.filter (fun f => f.endsWith shp_suffix) with _ | ⟨f, rest⟩
    · rw [hf]
      left
      exact ⟨rfl, rfl⟩
    · rw [hf]
      right
      exact ⟨rfl, rfl⟩
